import Mathlib

/-!
Verification of the multilingual query-routing and retrieval-scoring core of
the WellBridgeBot repository. The Python modules `modules/language_utils.py`
and `modules/llm_handler.py` (plus `config.py`) are shallowly embedded below:
pure functions become Lean functions, Python floats (all score weights are
exact multiples of 1/2, so float arithmetic on them is exact) become `ℚ`,
Python exceptions become `Except`, and the external collaborators (the
statistical language detector, the LLM, the retriever, the web search) become
explicit function parameters.  String operations are modelled on the
underlying character lists so that every definition is kernel-computable.
-/

/-! ## String helpers (models of Python string primitives) -/

/-- Model of Python `str.lower()` (ASCII case folding). -/
def lowerStr (s : String) : String := ⟨s.data.map Char.toLower⟩

/-- Model of Python `str.strip()`: drop whitespace from both ends. -/
def pyTrim (s : String) : String :=
  ⟨((s.data.dropWhile Char.isWhitespace).reverse.dropWhile Char.isWhitespace).reverse⟩

/-- `leadsChars needle hay` is true when `needle` is an initial run of `hay`. -/
def leadsChars : List Char → List Char → Bool
  | [], _ => true
  | _ :: _, [] => false
  | a :: as, b :: bs => a == b && leadsChars as bs

/-- `hasSubChars needle hay` is true when `needle` occurs contiguously in `hay`. -/
def hasSubChars (needle : List Char) : List Char → Bool
  | [] => needle.isEmpty
  | c :: t => leadsChars needle (c :: t) || hasSubChars needle t

/-- Model of Python `needle in hay` on strings. -/
def strContains (hay needle : String) : Bool := hasSubChars needle.data hay.data

/-- Number of (possibly overlapping) occurrences of `needle` in `hay`. -/
def subOccurrences (hay needle : String) : Nat :=
  (List.range hay.data.length).countP (fun i => leadsChars needle.data (hay.data.drop i))

/-- Helper for `pyWords`: split a character list at whitespace runs. -/
def wordsAux : List Char → List Char → List (List Char)
  | acc, [] => if acc.isEmpty then [] else [acc.reverse]
  | acc, c :: cs =>
    if c.isWhitespace then
      (if acc.isEmpty then wordsAux [] cs else acc.reverse :: wordsAux [] cs)
    else wordsAux (c :: acc) cs

/-- Model of Python `str.split()` with no separator: whitespace-delimited
words, with empty fragments discarded. -/
def pyWords (s : String) : List String := (wordsAux [] s.data).map (fun l => ⟨l⟩)

/-- Helper for `pyDedup`: drop elements already seen. -/
def pyDedupAux {α : Type} [DecidableEq α] : List α → List α → List α
  | _, [] => []
  | seen, x :: xs =>
    if x ∈ seen then pyDedupAux seen xs else x :: pyDedupAux (x :: seen) xs

/-- Model of Python `list(dict.fromkeys(l))`: deduplicate keeping the first
occurrence of each element, preserving order. -/
def pyDedup {α : Type} [DecidableEq α] (l : List α) : List α := pyDedupAux [] l

instance {ε α : Type} [DecidableEq ε] [DecidableEq α] : DecidableEq (Except ε α) := fun a b =>
  match a, b with
  | .error e, .error f =>
    if h : e = f then .isTrue (by rw [h]) else .isFalse (by intro hc; cases hc; exact h rfl)
  | .error _, .ok _ => .isFalse (by intro hc; cases hc)
  | .ok _, .error _ => .isFalse (by intro hc; cases hc)
  | .ok x, .ok y =>
    if h : x = y then .isTrue (by rw [h]) else .isFalse (by intro hc; cases hc; exact h rfl)

/-! ## `modules/language_utils.py` -/

/-- `YORUBA_PATTERNS['diacritics']`: the character class of the regex. -/
def yorubaDiacritics : List Char :=
  ['à', 'á', 'è', 'é', 'ì', 'í', 'ò', 'ó', 'ù', 'ú', 'ẹ', 'ọ', 'ṣ']

/-- `YORUBA_PATTERNS['common_words']`. -/
def yoruba_common_words : List String :=
  ["ṣé", "bí", "ní", "sí", "tí", "kí", "wá", "ló", "àti", "pé",
   "àrùn", "ìwòsàn", "ààìsàn", "ọ̀kan", "méjì", "mẹ́ta", "mẹ́rin",
   "àpótí", "ilé", "ọmọ", "baba", "mama", "ẹni", "àwọn", "gbogbo",
   "dára", "burú", "púpọ̀", "díẹ̀", "jẹ", "mu", "lọ", "wá", "rí"]

/-- `IGBO_PATTERNS['common_words']`. -/
def igbo_common_words : List String :=
  ["nke", "na", "ọ", "bụ", "ga", "nwere", "ka", "maka", "site",
   "mgbe", "ebe", "gịnị", "onye", "ndị", "oge", "ụbọchị",
   "ọrịa", "ahụike", "ọgwụ", "dọkịta", "ụlọ", "mmadụ"]

/-- `HAUSA_PATTERNS['common_words']`. -/
def hausa_common_words : List String :=
  ["da", "ba", "ya", "ta", "na", "ka", "ki", "mu", "ku", "su",
   "wannan", "waccan", "lokaci", "rana", "dare", "mutane",
   "cuta", "lafiya", "magani", "likita", "gida", "yara"]

/-- `len(re.findall(YORUBA_PATTERNS['diacritics'], text))`. -/
def yorubaDiacriticCount (text : String) : Nat :=
  text.data.countP (fun ch => yorubaDiacritics.contains ch)

/-- The word-overlap fraction used by the per-language detectors: of the
whitespace words of the lowercased text, the fraction that belongs to the
given fixed common-word list (0 when there are no words). -/
def langOverlapFrac (common : List String) (text : String) : ℚ :=
  if (pyWords (lowerStr text)).length = 0 then 0
  else (((pyWords (lowerStr text)).countP (fun w => common.contains w) : ℚ) /
    ((pyWords (lowerStr text)).length : ℚ))

/-- `detect_yoruba` from `modules/language_utils.py`: at least 3 Yoruba
diacritics, or more than 30 percent of the words in the Yoruba list.  The
source compares `count / len(words) > 0.3`; for a positive word count this is
exactly `10 * count > 3 * len(words)` (see `overlap_branch_iff`), which keeps
the definition kernel-computable. -/
def detect_yoruba (text : String) : Bool :=
  if 3 ≤ yorubaDiacriticCount text then true
  else
    let ws := pyWords (lowerStr text)
    let cnt := ws.foldl (fun acc w => if yoruba_common_words.contains w then acc + 1 else acc) 0
    if 0 < ws.length ∧ 3 * ws.length < 10 * cnt then true else false

/-- `detect_igbo` from `modules/language_utils.py`; the ratio test is
cross-multiplied as in `detect_yoruba`. -/
def detect_igbo (text : String) : Bool :=
  let ws := pyWords (lowerStr text)
  let cnt := ws.foldl (fun acc w => if igbo_common_words.contains w then acc + 1 else acc) 0
  if 0 < ws.length ∧ 3 * ws.length < 10 * cnt then true else false

/-- `detect_hausa` from `modules/language_utils.py`; the ratio test is
cross-multiplied as in `detect_yoruba`. -/
def detect_hausa (text : String) : Bool :=
  let ws := pyWords (lowerStr text)
  let cnt := ws.foldl (fun acc w => if hausa_common_words.contains w then acc + 1 else acc) 0
  if 0 < ws.length ∧ 3 * ws.length < 10 * cnt then true else false

/-- `pidgin_keywords` from `is_pidgin`. -/
def pidgin_keywords : List String :=
  ["dey", "no go", "una", "make we", "abi", "wey", "na why",
   "e be like", "wetin", "comot", "waka", "how far", "no vex",
   "i dey", "you dey", "dem dey", "na so", "shey", "sef",
   "wahala", "pikin", "oya", "chop", "yarn", "gbagaun"]

/-- The strong Pidgin phrases tested by `is_pidgin`. -/
def strongPidginPhrases : List String := ["i wan", "make i", "no be", "e dey"]

/-- Number of distinct entries of `pidgin_keywords` occurring as substrings of
the lowercased text (each listed marker counts at most once). -/
def pidginMarkerCount (text : String) : Nat :=
  pidgin_keywords.countP (fun k => strContains (lowerStr text) k)

/-- `is_pidgin` from `modules/language_utils.py`: loop over the keyword list
incrementing a counter for each keyword contained in the lowercased text;
classify as Pidgin when the counter reaches 3 or a strong phrase occurs. -/
def is_pidgin (text : String) : Bool :=
  let tl := lowerStr text
  let cnt := pidgin_keywords.foldl (fun acc k => if strContains tl k then acc + 1 else acc) 0
  decide (3 ≤ cnt) || strongPidginPhrases.any (fun p => strContains tl p)

/-- The valid language codes of the system. -/
def validLangs : List String := ["en", "yo", "ig", "ha", "pidgin"]

/-- Outcome of the external statistical detector (`langdetect.detect`): a
language code, the library detection failure (`LangDetectException`, the only
exception `detect_language` catches), or any other raised exception. -/
inductive DetectErr : Type
  | langDetect : DetectErr
  | other : DetectErr
deriving DecidableEq

/-- The code-returning cascade of `detect_language` after the baseline guess
has been obtained (lines 111-154 of `modules/language_utils.py`). -/
def detect_cascade (base : String) (t : String) : String :=
  if base = "en" then
    if is_pidgin t then "pidgin"
    else if detect_yoruba t then "yo"
    else if detect_igbo t then "ig"
    else if detect_hausa t then "ha"
    else "en"
  else if base = "yo" then (if detect_yoruba t then "yo" else "en")
  else if base = "ig" then (if detect_igbo t then "ig" else "en")
  else if base = "ha" then (if detect_hausa t then "ha" else "en")
  else
    if detect_yoruba t then "yo"
    else if detect_igbo t then "ig"
    else if detect_hausa t then "ha"
    else if is_pidgin t then "pidgin"
    else "en"

/-- `detect_language` from `modules/language_utils.py`, parameterized by the
external detector.  A `LangDetectException` is caught and degrades the
baseline to `"en"`; any other exception propagates to the caller. -/
def detect_language (d : String → Except DetectErr String) (text : String) : Except Unit String :=
  if pyTrim text = "" then .ok "en"
  else
    match d (pyTrim text) with
    | .ok code => .ok (detect_cascade code (pyTrim text))
    | .error .langDetect => .ok (detect_cascade "en" (pyTrim text))
    | .error .other => .error ()

/-- `get_language_name` from `modules/language_utils.py`. -/
def get_language_name (lang_code : String) : String :=
  if lang_code = "yo" then "Yoruba"
  else if lang_code = "ig" then "Igbo"
  else if lang_code = "ha" then "Hausa"
  else if lang_code = "en" then "English"
  else if lang_code = "pidgin" then "Nigerian Pidgin"
  else "English"

/-! ## `modules/llm_handler.py`: scoring (`calculate_result_quality_score`) -/

/-- A retrieved source document: `metadata["source"]` when the document has a
metadata dictionary with a `source` key. -/
structure Doc : Type where
  metadata_source : Option String
deriving DecidableEq

/-- `strong_negatives` from `calculate_result_quality_score`. -/
def strong_negatives : List String :=
  ["don\x27t know", "not sure", "cannot answer", "insufficient information",
   "not enough information", "context does not contain", "i don\x27t have",
   "unable to answer", "no information", "not available in"]

/-- `tb_keywords` from `calculate_result_quality_score`. -/
def tb_keywords : List String :=
  ["tuberculosis", "tb", "infection", "treatment", "symptoms",
   "prevention", "lungs", "bacteria", "disease", "diagnosis"]

/-- The length component of the score (`text_length` is the length of the
stripped result text). -/
def lengthScore (text_length : Nat) : ℚ :=
  if 100 ≤ text_length ∧ text_length ≤ 500 then 4
  else if 50 ≤ text_length ∧ text_length < 100 then 2
  else if 500 < text_length then 3
  else if text_length < 50 then 1/2
  else 0

/-- The source-count component of the score. -/
def sourceScore (n : Nat) : ℚ := if 2 ≤ n then 3 else if n = 1 then 3/2 else -2

/-- `tb_matches`: how many of the fixed domain keywords occur in the
lowercased result text. -/
def tbMatches (result_lower : String) : Nat :=
  tb_keywords.countP (fun kw => strContains result_lower (lowerStr kw))

/-- The domain-keyword component of the score. -/
def kwScore (m : Nat) : ℚ := if 3 ≤ m then 3 else if 1 ≤ m then 3/2 else -2

/-- `query_words`: the distinct lowercased query words longer than 3
characters (a Python set; modelled as a first-occurrence deduplication, only
its cardinality and membership are ever used). -/
def queryWordsOf (query : String) : List String :=
  pyDedup (((pyWords query).filter (fun w => 3 < w.length)).map lowerStr)

/-- `len(overlap)`: how many distinct long query words also occur among the
lowercased words of the result text. -/
def overlapCount (query text : String) : Nat :=
  (queryWordsOf query).countP (fun w => ((pyWords text).map lowerStr).contains w)

/-- `overlap_ratio` as an exact rational (0 when there are no long query
words, in which case the scorer skips the overlap block). -/
def overlapFrac (query text : String) : ℚ :=
  if (queryWordsOf query).length = 0 then 0
  else ((overlapCount query text : ℚ) / ((queryWordsOf query).length : ℚ))

/-- The query-overlap component of the score.  The source compares
`overlap_ratio >= 0.5` and `>= 0.3`; for a positive number of query words
these are exactly the cross-multiplied integer tests used here. -/
def overlapScore (query text : String) : ℚ :=
  if (queryWordsOf query).length = 0 then 0
  else if (queryWordsOf query).length ≤ 2 * overlapCount query text then 3
  else if 3 * (queryWordsOf query).length ≤ 10 * overlapCount query text then 3/2
  else -1

/-- `calculate_result_quality_score` from `modules/llm_handler.py`: the two
hard-reject short circuits (short text, strong-negative phrase), then the sum
of the length, source-count, base, domain-keyword and query-overlap
components, accumulated in source order. -/
def calculate_result_quality_score (result_text : String) (sources : List Doc)
    (query : String) : ℚ :=
  if (pyTrim result_text).length < 10 then 0
  else
    let result_lower := lowerStr result_text
    if strong_negatives.any (fun ind => strContains result_lower ind) then 0
    else
      lengthScore (pyTrim result_text).length + sourceScore sources.length + 2
        + kwScore (tbMatches result_lower) + overlapScore query result_text

/-- `MIN_SCORE` from `config.py`. -/
def MIN_SCORE : ℚ := 3/2

/-! ## `modules/llm_handler.py`: KB search over query variations -/

/-- The best-scored retrieval candidate (the dictionary built at lines
264-269 of `modules/llm_handler.py`). -/
structure Candidate : Type where
  result : String
  source_documents : List Doc
  query_used : String
  score : ℚ
deriving DecidableEq

/-- The loop of `search_kb_with_multiple_strategies`: walk the variations in
order; a retrieval failure skips the variation; a strictly higher score
replaces the best candidate so far (`best_score` starts at 0). -/
def search_kb_go (retr : String → Except Unit (String × List Doc)) :
    List String → Option Candidate → ℚ → Option Candidate
  | [], best, _ => best
  | v :: rest, best, bestScore =>
    match retr v with
    | .error _ => search_kb_go retr rest best bestScore
    | .ok (t, s) =>
      let sc := calculate_result_quality_score t s v
      if bestScore < sc then search_kb_go retr rest (some ⟨t, s, v, sc⟩) sc
      else search_kb_go retr rest best bestScore

/-- `search_kb_with_multiple_strategies` from `modules/llm_handler.py`,
parameterized by the external retriever (one `qa_chain.invoke` call per
variation, yielding the result text and the source documents, or raising). -/
def search_kb_with_multiple_strategies (retr : String → Except Unit (String × List Doc))
    (query_variations : List String) : Option Candidate :=
  search_kb_go retr query_variations none 0

/-! ## `modules/llm_handler.py`: external collaborators and translation -/

/-- The external collaborators of the pipeline (section 6 of the design):
the statistical language detector, the LLM behind the two translation
directions and the web-summary prompt, the KB retriever, the web search. Each
may raise, modelled by `Except`. -/
structure Env : Type where
  detector : String → Except DetectErr String
  toEnglishLLM : String → String → Except Unit String
  fromEnglishLLM : String → String → Except Unit String
  retriever : String → Except Unit (String × List Doc)
  webSearch : String → Except Unit String
  summarizeLLM : String → String → Except Unit String

/-- `translate_to_english` from `modules/llm_handler.py`: identity on
English; otherwise the stripped LLM answer, or the input unchanged when the
LLM call raises (the whole body is inside `try`). -/
def translate_to_english (env : Env) (text : String) (source_lang : String) : String :=
  if source_lang = "en" then text
  else
    match env.toEnglishLLM text source_lang with
    | .ok r => pyTrim r
    | .error _ => text

/-- `translate_from_english` from `modules/llm_handler.py`: identity on
English; otherwise the stripped LLM answer, or the input unchanged when the
LLM call raises. -/
def translate_from_english (env : Env) (text : String) (target_lang : String) : String :=
  if target_lang = "en" then text
  else
    match env.fromEnglishLLM text target_lang with
    | .ok r => pyTrim r
    | .error _ => text

/-! ## `modules/llm_handler.py`: query variations -/

/-- The `variations` list of `create_multilingual_search_variations` before
the final deduplication: the original query, then (for non-English) a
non-empty English translation different from the query, then the
`" tuberculosis"`-augmented query when neither `"tb"` nor `"tuberculosis"`
occurs in the lowercased query. -/
def raw_search_variations (env : Env) (query : String) (detected_lang : String) : List String :=
  (if detected_lang ≠ "en" then
    (if translate_to_english env query detected_lang ≠ "" ∧
        translate_to_english env query detected_lang ≠ query then
      [query] ++ [translate_to_english env query detected_lang]
    else [query])
  else [query]) ++
  (if ¬ strContains (lowerStr query) "tb" = true ∧
      ¬ strContains (lowerStr query) "tuberculosis" = true then
    [query ++ " tuberculosis"]
  else [])

/-- `create_multilingual_search_variations` from `modules/llm_handler.py`:
the raw variation list deduplicated keeping first occurrences
(`list(dict.fromkeys(variations))`). -/
def create_multilingual_search_variations (env : Env) (query : String)
    (detected_lang : String) : List String :=
  pyDedup (raw_search_variations env query detected_lang)

/-! ## `modules/llm_handler.py`: web search fallback -/

/-- The domain-restricted search string (line 296). -/
def searchTerms1 (query : String) : String :=
  "tuberculosis " ++ query ++ " site:who.int OR site:cdc.gov OR site:nhs.uk OR site:mayoclinic.org"

/-- The broadened search string (line 306). -/
def searchTerms2 (query : String) : String := "tuberculosis " ++ query ++ " health medical"

/-- The fixed message returned when both searches are insufficient (line 311). -/
def noInfoMsg : String :=
  "I couldn\x27t find current information online. Please consult a healthcare professional for the most accurate information."

/-- The fixed message returned by the exception handler of
`web_search_fallback` (line 349). -/
def fetchFailMsg : String :=
  "Unable to fetch current information at this time. Please try again or consult a healthcare professional."

/-- The `try` block of `web_search_fallback`: domain-restricted search,
broadened retry when the result strips to fewer than 20 characters, the fixed
no-information message when still insufficient, otherwise the stripped LLM
summary, translated when the target language is not English. -/
def web_search_body (env : Env) (query : String) (target_lang : String) : Except Unit String :=
  match env.webSearch (searchTerms1 query) with
  | .error e => .error e
  | .ok r1 =>
    match (if (pyTrim r1).length < 20 then env.webSearch (searchTerms2 query) else .ok r1) with
    | .error e => .error e
    | .ok results =>
      if (pyTrim results).length < 20 then .ok noInfoMsg
      else
        match env.summarizeLLM query results with
        | .error e => .error e
        | .ok summary =>
          .ok (if target_lang ≠ "en" then translate_from_english env (pyTrim summary) target_lang
            else pyTrim summary)

/-- `web_search_fallback` from `modules/llm_handler.py`: the body above with
its exception handler, which returns the fixed fetch-failure message. -/
def web_search_fallback (env : Env) (query : String) (target_lang : String) : String :=
  match web_search_body env query target_lang with
  | .ok s => s
  | .error _ => fetchFailMsg

/-! ## `modules/llm_handler.py`: `get_response` -/

/-- The final result record of `get_response`. -/
structure ResponseResult : Type where
  source : String
  answer : String
  lang : String
  detected_lang : String
deriving DecidableEq

/-- The Pidgin re-check of `get_response` (line 367): an English detection is
overridden to Pidgin when `is_pidgin` accepts the raw query. -/
def adjusted_lang (d0 : String) (query : String) : String :=
  if d0 = "en" && is_pidgin query then "pidgin" else d0

/-- Language determination at the top of `get_response` (lines 363-373):
detect, re-check Pidgin on English, then force a valid code. -/
def pipeline_lang (env : Env) (query : String) : Except Unit String :=
  match detect_language env.detector query with
  | .error e => .error e
  | .ok d0 =>
    .ok (if validLangs.contains (adjusted_lang d0 query) then adjusted_lang d0 query else "en")

/-- The source filenames attached to a KB answer: of the first three source
documents, the part of `metadata["source"]` after the last `/` (documents
without such metadata are skipped). -/
def kb_filenames (sources : List Doc) : List String :=
  (sources.take 3).filterMap
    (fun d => d.metadata_source.map (fun s => (s.splitOn "/").getLastD s))

/-- The KB branch of `get_response` (lines 401-428): strip the result,
translate it for non-English targets, and label it `"knowledge_base"`, with
the distinct source filenames appended in parentheses when present. -/
def kb_answer (env : Env) (query : String) (target_lang detected_lang : String)
    (c : Candidate) : ResponseResult :=
  let answer := pyTrim c.result
  let answer := if target_lang ≠ "en" then translate_from_english env answer target_lang else answer
  let fns := kb_filenames c.source_documents
  let src := "knowledge_base" ++
    (if fns.isEmpty then "" else " (" ++ String.intercalate ", " (pyDedup fns) ++ ")")
  ⟨src, answer, target_lang, detected_lang⟩

/-- The web branch of `get_response` (lines 430-445). -/
def web_answer (env : Env) (query : String) (target_lang detected_lang : String) : ResponseResult :=
  ⟨"internet_search", web_search_fallback env query target_lang, target_lang, detected_lang⟩

/-- The `try` block of `get_response`: language determination, variation
generation, KB search, then the threshold decision between the KB branch and
the web fallback. -/
def get_response_body (env : Env) (query : String) : Except Unit ResponseResult :=
  match pipeline_lang env query with
  | .error e => .error e
  | .ok detected =>
    match search_kb_with_multiple_strategies env.retriever
        (create_multilingual_search_variations env query detected) with
    | some c =>
      if MIN_SCORE ≤ c.score then .ok (kb_answer env query detected detected c)
      else .ok (web_answer env query detected detected)
    | none => .ok (web_answer env query detected detected)

/-- The fixed apology answer of the `except` handler of `get_response`. -/
def errorAnswer : String := "An error occurred while processing your question. Please try again."

/-- `get_response` from `modules/llm_handler.py`: the body above with its
pipeline-boundary exception handler. -/
def get_response (env : Env) (query : String) : ResponseResult :=
  match get_response_body env query with
  | .ok r => r
  | .error _ => ⟨"error", errorAnswer, "en", "en"⟩

/-! ## Concrete collaborator data used by the witnesses -/

/-- A KB passage used as witness data (163 characters, 8 domain keywords,
full overlap with the long words of `"tb treatment info"`). -/
def kbTextA : String :=
  "Tuberculosis is an infection caused by bacteria. Early treatment and diagnosis help stop the disease, and prevention protects the lungs. Get more info at a clinic."

def kbDocsA : List Doc := [⟨some "kb/tb_basics.txt"⟩, ⟨none⟩]

/-- A retriever that raises on one specific variation and otherwise returns
the passage above. -/
def retrA : String → Except Unit (String × List Doc) :=
  fun v => if v = "bad query" then .error () else .ok (kbTextA, kbDocsA)

def candA : Candidate :=
  ⟨kbTextA, kbDocsA, "tb treatment info",
    calculate_result_quality_score kbTextA kbDocsA "tb treatment info"⟩

/-- A KB passage of exactly 200 characters with exactly 4 domain-keyword
matches and none of the strong-negative phrases. -/
def kbTextC : String :=
  "The infection often starts with a light cough and then a mild fever at night. Seek out treatment in a clinic when symptoms persist over three weeks. The disease responds well when care begins earlier."

def kbDocsC : List Doc := [⟨some "kb/tb_symptoms.txt"⟩, ⟨some "kb/tb_care.txt"⟩]

/-- Five long words, three of which (`cough`, `fever`, `clinic`) occur in
`kbTextC`: overlap ratio 3/5. -/
def queryC : String := "tb cough fever clinic spread help"

def envC : Env :=
  ⟨fun _ => .ok "en", fun _ _ => .error (), fun _ _ => .error (),
   fun _ => .ok (kbTextC, kbDocsC), fun _ => .error (), fun _ _ => .error ()⟩

def candC : Candidate :=
  ⟨kbTextC, kbDocsC, queryC, calculate_result_quality_score kbTextC kbDocsC queryC⟩

/-- An environment whose statistical detector raises an exception that is not
the detection failure: the one uncaught failure of the pipeline body. -/
def envErr : Env :=
  ⟨fun _ => .error .other, fun _ _ => .error (), fun _ _ => .error (),
   fun _ => .error (), fun _ => .error (), fun _ _ => .error ()⟩

/-- An environment whose web search always returns an empty result string. -/
def envWebA : Env :=
  ⟨fun _ => .ok "en", fun _ _ => .error (), fun _ _ => .error (),
   fun _ => .error (), fun _ => .ok "", fun _ _ => .error ()⟩

/-- An environment whose web search always raises. -/
def envWebB : Env :=
  ⟨fun _ => .ok "en", fun _ _ => .error (), fun _ _ => .error (),
   fun _ => .error (), fun _ => .error (), fun _ _ => .error ()⟩

/-! ## Helper lemmas -/

theorem pyDedupAux_sublist {α : Type} [DecidableEq α] (l : List α) :
    ∀ seen, (pyDedupAux seen l).Sublist l := by
  induction l with
  | nil => intro seen; simp [pyDedupAux]
  | cons x xs ih =>
    intro seen
    simp only [pyDedupAux]
    split
    · exact (ih seen).cons x
    · exact (ih (x :: seen)).cons₂ x

theorem mem_pyDedupAux {α : Type} [DecidableEq α] (a : α) (l : List α) :
    ∀ seen, a ∈ pyDedupAux seen l ↔ a ∈ l ∧ a ∉ seen := by
  induction l with
  | nil => intro seen; simp [pyDedupAux]
  | cons x xs ih =>
    intro seen
    simp only [pyDedupAux]
    split <;> rename_i hx
    · by_cases hax : a = x
      · subst hax; simp [hx, ih]
      · simp [hax, ih]
    · by_cases hax : a = x
      · subst hax; simp [hx, ih]
      · simp [hax, ih]

theorem pyDedupAux_nodup {α : Type} [DecidableEq α] (l : List α) :
    ∀ seen, (pyDedupAux seen l).Nodup := by
  induction l with
  | nil => intro seen; simp [pyDedupAux]
  | cons x xs ih =>
    intro seen
    simp only [pyDedupAux]
    split
    · exact ih seen
    · rw [List.nodup_cons]
      refine ⟨fun hc => ?_, ih (x :: seen)⟩
      exact ((mem_pyDedupAux x xs (x :: seen)).1 hc).2 (List.mem_cons_self x seen)

theorem foldl_count_eq {α : Type} (p : α → Bool) (l : List α) :
    ∀ n : Nat, l.foldl (fun acc k => if p k then acc + 1 else acc) n = n + l.countP p := by
  induction l with
  | nil => intro n; simp [List.countP_nil]
  | cons x xs ih =>
    intro n
    by_cases h : p x <;> simp [List.foldl_cons, ih, h, List.countP_cons] <;> omega

/-- The cross-multiplied integer form of the word-overlap ratio test is
exactly the ratio comparison of the Python source. -/
theorem overlap_branch_iff (c n : Nat) (hn : 0 < n) :
    3 * n < 10 * c ↔ ((c : ℚ) / (n : ℚ) > 3 / 10) := by
  rw [gt_iff_lt, div_lt_div_iff₀ (by norm_num) (by exact_mod_cast hn)]
  norm_cast
  omega

theorem langOverlapFrac_lt (common : List String) (t : String)
    (hc : (pyWords (lowerStr t)).countP (fun w => common.contains w) = 0) :
    langOverlapFrac common t < 3 / 10 := by
  unfold langOverlapFrac
  rw [hc]
  split_ifs <;> norm_num

theorem frac_lt_imp (common : List String) (t : String)
    (h : langOverlapFrac common t < 3 / 10) :
    ¬(0 < (pyWords (lowerStr t)).length ∧
      3 * (pyWords (lowerStr t)).length <
        10 * (pyWords (lowerStr t)).countP (fun w => common.contains w)) := by
  rintro ⟨hlen, hlt⟩
  unfold langOverlapFrac at h
  rw [if_neg (Nat.pos_iff_ne_zero.mp hlen)] at h
  exact absurd ((overlap_branch_iff _ _ hlen).1 hlt) (not_lt.mpr h.le)

theorem detect_yoruba_eq_false {t : String}
    (hdia : yorubaDiacriticCount t < 3)
    (hfrac : langOverlapFrac yoruba_common_words t < 3 / 10) :
    detect_yoruba t = false := by
  simp only [detect_yoruba, foldl_count_eq, Nat.zero_add]
  rw [if_neg (by omega), if_neg (frac_lt_imp _ _ hfrac)]

theorem detect_igbo_eq_false {t : String}
    (hfrac : langOverlapFrac igbo_common_words t < 3 / 10) :
    detect_igbo t = false := by
  simp only [detect_igbo, foldl_count_eq, Nat.zero_add]
  rw [if_neg (frac_lt_imp _ _ hfrac)]

theorem detect_hausa_eq_false {t : String}
    (hfrac : langOverlapFrac hausa_common_words t < 3 / 10) :
    detect_hausa t = false := by
  simp only [detect_hausa, foldl_count_eq, Nat.zero_add]
  rw [if_neg (frac_lt_imp _ _ hfrac)]

theorem is_pidgin_eq (t : String) :
    is_pidgin t = (decide (3 ≤ pidginMarkerCount t) ||
      strongPidginPhrases.any (fun p => strContains (lowerStr t) p)) := by
  simp only [is_pidgin, foldl_count_eq, Nat.zero_add]
  rfl

theorem is_pidgin_of_count {t : String} (h : 3 ≤ pidginMarkerCount t) :
    is_pidgin t = true := by
  rw [is_pidgin_eq]
  simp [h]

theorem detect_cascade_mem (base t : String) : detect_cascade base t ∈ validLangs := by
  unfold detect_cascade validLangs
  split_ifs <;> simp

/-- For a text that passes both hard-reject checks the score is the sum of
its five components. -/
theorem calc_score_components (result_text : String) (sources : List Doc) (query : String)
    (h1 : ¬ (pyTrim result_text).length < 10)
    (h2 : strong_negatives.any (fun ind => strContains (lowerStr result_text) ind) = false) :
    calculate_result_quality_score result_text sources query =
      lengthScore (pyTrim result_text).length + sourceScore sources.length + 2
        + kwScore (tbMatches (lowerStr result_text)) + overlapScore query result_text := by
  simp only [calculate_result_quality_score]
  rw [if_neg h1, if_neg (by simp [h2])]

theorem get_response_body_kb (env : Env) (q detected : String) (c : Candidate)
    (hdet : pipeline_lang env q = .ok detected)
    (hs : search_kb_with_multiple_strategies env.retriever
      (create_multilingual_search_variations env q detected) = some c)
    (hmin : MIN_SCORE ≤ c.score) :
    get_response_body env q = .ok (kb_answer env q detected detected c) := by
  unfold get_response_body
  simp only [hdet, hs]
  rw [if_pos hmin]

theorem get_response_kb_label (env : Env) (q detected : String) (c : Candidate)
    (hdet : pipeline_lang env q = .ok detected)
    (hs : search_kb_with_multiple_strategies env.retriever
      (create_multilingual_search_variations env q detected) = some c)
    (hmin : MIN_SCORE ≤ c.score) :
    ∃ suf, (get_response env q).source = "knowledge_base" ++ suf := by
  unfold get_response
  rw [get_response_body_kb env q detected c hdet hs hmin]
  exact ⟨_, rfl⟩

/-! ## Claim C1 -/

/-- Claim C1: whenever the result text (lowercased) contains any phrase of
the fixed strong-negative list, `calculate_result_quality_score` returns
exactly 0, regardless of text length, source count, keyword matches, or
query overlap. -/
theorem C1_strong_negative_zero (result_text : String) (sources : List Doc) (query : String)
    (h : strong_negatives.any (fun ind => strContains (lowerStr result_text) ind) = true) :
    calculate_result_quality_score result_text sources query = 0 := by
  simp only [calculate_result_quality_score]
  split_ifs with h1
  · rfl
  · rfl

theorem C1_strong_negative_zero_witness :
    calculate_result_quality_score
      "Based on the provided context, the context does not contain information about that topic."
      [⟨some "docs/tb.txt"⟩, ⟨some "docs/who.txt"⟩] "what is tuberculosis treatment" = 0 :=
  C1_strong_negative_zero _ _ _ (by decide)

/-! ## Claim C3 -/

/-- Claim C3: `detect_language` is total over every returned code and every
raised detection failure of the external statistical detector: the result is
always one of the five valid codes, and a detection failure degrades the
baseline to `"en"` (the result then agrees with a detector that returns
`"en"`).  The only exception `detect_language` catches is the detection
failure itself, so the hypothesis excludes detector exceptions of any other
kind. -/
theorem C3_detect_language_total (d : String → Except DetectErr String) (text : String)
    (h : d (pyTrim text) ≠ .error .other) :
    ∃ c, detect_language d text = .ok c ∧ c ∈ validLangs ∧
      (d (pyTrim text) = .error .langDetect →
        detect_language (fun _ => .ok "en") text = .ok c) := by
  unfold detect_language
  by_cases ht : pyTrim text = ""
  · exact ⟨"en", by simp [ht], by decide, fun _ => by simp [ht]⟩
  · rw [if_neg ht]
    cases hd : d (pyTrim text) with
    | ok code =>
      refine ⟨detect_cascade code (pyTrim text), rfl, detect_cascade_mem _ _, fun hld => ?_⟩
      simp at hld
    | error e =>
      cases e with
      | langDetect =>
        refine ⟨detect_cascade "en" (pyTrim text), rfl, detect_cascade_mem _ _, fun _ => ?_⟩
        simp [ht]
      | other => exact absurd hd h

theorem C3_detect_language_total_witness :
    ∃ c, detect_language (fun _ => .error .langDetect) "Wetin be TB?" = .ok c ∧
      c ∈ validLangs ∧
      ((fun (_ : String) => (Except.error DetectErr.langDetect : Except DetectErr String))
          (pyTrim "Wetin be TB?") = .error .langDetect →
        detect_language (fun _ => .ok "en") "Wetin be TB?" = .ok c) :=
  C3_detect_language_total (fun _ => .error .langDetect) "Wetin be TB?" (by decide)

/-! ## Claim C4 -/

/-- Claim C4 counterexample: a text with three Pidgin markers, no Yoruba
diacritics, and all three word-overlap fractions below 3/10, for which the
claim asserts `detect` returns `pidgin` whatever the detector baseline; but
with baseline `"yo"` the source re-runs only the Yoruba test and downgrades
to `"en"`. -/
theorem C4_pidgin_counterexample :
    3 ≤ pidginMarkerCount (pyTrim "wetin dey abi") ∧
    yorubaDiacriticCount (pyTrim "wetin dey abi") < 3 ∧
    langOverlapFrac yoruba_common_words (pyTrim "wetin dey abi") < 3 / 10 ∧
    langOverlapFrac igbo_common_words (pyTrim "wetin dey abi") < 3 / 10 ∧
    langOverlapFrac hausa_common_words (pyTrim "wetin dey abi") < 3 / 10 ∧
    detect_language (fun _ => .ok "yo") "wetin dey abi" ≠ .ok "pidgin" ∧
    detect_language (fun _ => .ok "yo") "wetin dey abi" = .ok "en" := by
  refine ⟨by decide, by decide, langOverlapFrac_lt _ _ (by decide),
    langOverlapFrac_lt _ _ (by decide), langOverlapFrac_lt _ _ (by decide),
    by decide, by decide⟩

/-- Claim C4, amended: the conclusion holds for every detector outcome that
is a detection failure or a baseline code other than `yo`, `ig`, `ha` (for
those three baselines the source instead confirms-or-downgrades and returns
the base language or `"en"`). -/
theorem C4_pidgin_amended (d : String → Except DetectErr String) (text : String)
    (h1 : 3 ≤ pidginMarkerCount (pyTrim text))
    (h2 : yorubaDiacriticCount (pyTrim text) < 3)
    (h3 : langOverlapFrac yoruba_common_words (pyTrim text) < 3 / 10)
    (h4 : langOverlapFrac igbo_common_words (pyTrim text) < 3 / 10)
    (h5 : langOverlapFrac hausa_common_words (pyTrim text) < 3 / 10)
    (h6 : ∀ c, d (pyTrim text) = .ok c → c ∉ (["yo", "ig", "ha"] : List String))
    (h7 : d (pyTrim text) ≠ .error .other) :
    detect_language d text = .ok "pidgin" := by
  have ht : pyTrim text ≠ "" := by
    intro hc
    rw [hc] at h1
    exact absurd h1 (by decide)
  have hpid : is_pidgin (pyTrim text) = true := is_pidgin_of_count h1
  have hyo : detect_yoruba (pyTrim text) = false := detect_yoruba_eq_false h2 h3
  have hig : detect_igbo (pyTrim text) = false := detect_igbo_eq_false h4
  have hha : detect_hausa (pyTrim text) = false := detect_hausa_eq_false h5
  have hcasc : ∀ code, code ∉ (["yo", "ig", "ha"] : List String) →
      detect_cascade code (pyTrim text) = "pidgin" := by
    intro code hcode
    simp only [List.mem_cons, List.not_mem_nil, or_false, not_or] at hcode
    unfold detect_cascade
    by_cases hen : code = "en"
    · rw [if_pos hen, if_pos hpid]
    · rw [if_neg hen, if_neg hcode.1, if_neg hcode.2.1, if_neg hcode.2.2,
        if_neg (by simp [hyo]), if_neg (by simp [hig]), if_neg (by simp [hha]), if_pos hpid]
  unfold detect_language
  rw [if_neg ht]
  cases hd : d (pyTrim text) with
  | ok code =>
    show Except.ok (detect_cascade code (pyTrim text)) = Except.ok "pidgin"
    rw [hcasc code (h6 code hd)]
  | error e =>
    cases e with
    | langDetect =>
      show Except.ok (detect_cascade "en" (pyTrim text)) = Except.ok "pidgin"
      rw [hcasc "en" (by decide)]
    | other => exact absurd hd h7

theorem C4_pidgin_amended_witness :
    detect_language (fun _ => .ok "fr") "wetin dey abi how far" = .ok "pidgin" :=
  C4_pidgin_amended _ _ (by decide) (by decide)
    (langOverlapFrac_lt _ _ (by decide)) (langOverlapFrac_lt _ _ (by decide))
    (langOverlapFrac_lt _ _ (by decide))
    (by intro c hc; injection hc with h; subst h; decide) (by decide)

/-! ## Claim C5 -/

/-- Claim C5 counterexample: `"wetin"` is a listed Pidgin marker and occurs
3 times in `"wetin wetin wetin"`, so the claim classifies the text as
Pidgin; but `is_pidgin` counts each listed marker at most once (a substring
presence test per keyword), finds no strong phrase, and answers `false`. -/
theorem C5_is_pidgin_counterexample :
    "wetin" ∈ pidgin_keywords ∧
    3 ≤ subOccurrences "wetin wetin wetin" "wetin" ∧
    is_pidgin "wetin wetin wetin" = false := by decide

/-- Claim C5, amended: the Pidgin test classifies a text as Pidgin exactly
when at least 3 distinct markers of the fixed list occur (case-insensitively)
as substrings of the text, or one of the strong phrases is present; a single
marker repeated 3 times therefore does not qualify on its own. -/
theorem C5_is_pidgin_amended (text : String) :
    is_pidgin text = true ↔
      3 ≤ pidginMarkerCount text ∨
        ∃ p ∈ strongPidginPhrases, strContains (lowerStr text) p = true := by
  rw [is_pidgin_eq]
  simp

/-! ## Claim C7 -/

/-- Claim C7: for every query, detected language, and translator behaviour,
the variation list starts with the original query, contains no duplicates,
is a sublist of the raw variation list (so first-seen insertion order is
preserved), and keeps exactly the raw list's elements.  Determinism is
inherent: the function is pure in the environment. -/
theorem C7_variations_spec (env : Env) (query detected_lang : String) :
    (create_multilingual_search_variations env query detected_lang).head? = some query ∧
    (create_multilingual_search_variations env query detected_lang).Nodup ∧
    (create_multilingual_search_variations env query detected_lang).Sublist
      (raw_search_variations env query detected_lang) ∧
    ∀ x, x ∈ create_multilingual_search_variations env query detected_lang ↔
      x ∈ raw_search_variations env query detected_lang := by
  have hraw : ∃ rest, raw_search_variations env query detected_lang = query :: rest := by
    unfold raw_search_variations
    split_ifs <;> exact ⟨_, rfl⟩
  obtain ⟨rest, hrest⟩ := hraw
  refine ⟨?_, pyDedupAux_nodup _ _, pyDedupAux_sublist _ _, fun x => ?_⟩
  · unfold create_multilingual_search_variations pyDedup
    rw [hrest]
    simp [pyDedupAux]
  · unfold create_multilingual_search_variations pyDedup
    rw [mem_pyDedupAux]
    simp

/-! ## Claim C10 -/

/-- Claim C10: when the query has no word longer than 3 characters, the
query-overlap block contributes nothing, and for a non-rejected text the
score is exactly the sum of the length, source-count, base and
domain-keyword components. -/
theorem C10_no_long_query_words (result_text : String) (sources : List Doc) (query : String)
    (h1 : ¬ (pyTrim result_text).length < 10)
    (h2 : strong_negatives.any (fun ind => strContains (lowerStr result_text) ind) = false)
    (h3 : ∀ w ∈ pyWords query, w.length ≤ 3) :
    calculate_result_quality_score result_text sources query =
      lengthScore (pyTrim result_text).length + sourceScore sources.length + 2
        + kwScore (tbMatches (lowerStr result_text)) := by
  have hq : queryWordsOf query = [] := by
    unfold queryWordsOf
    have hfil : (pyWords query).filter (fun w => 3 < w.length) = [] := by
      rw [List.filter_eq_nil_iff]
      intro a ha
      simpa using Nat.not_lt.mpr (h3 a ha)
    rw [hfil]
    rfl
  have hov : overlapScore query result_text = 0 := by
    unfold overlapScore
    rw [hq]
    rfl
  simp only [calculate_result_quality_score]
  rw [if_neg h1, if_neg (by simp [h2]), hov, add_zero]

/-! ## Claim C2 -/

theorem search_kb_go_cons_error (retr : String → Except Unit (String × List Doc))
    (v : String) (rest : List String) (best : Option Candidate) (bs : ℚ) (e : Unit)
    (h : retr v = .error e) :
    search_kb_go retr (v :: rest) best bs = search_kb_go retr rest best bs := by
  simp only [search_kb_go, h]

theorem search_kb_go_cons_ok_improve (retr : String → Except Unit (String × List Doc))
    (v : String) (rest : List String) (best : Option Candidate) (bs : ℚ)
    (t : String) (s : List Doc) (h : retr v = .ok (t, s))
    (hlt : bs < calculate_result_quality_score t s v) :
    search_kb_go retr (v :: rest) best bs =
      search_kb_go retr rest (some ⟨t, s, v, calculate_result_quality_score t s v⟩)
        (calculate_result_quality_score t s v) := by
  simp only [search_kb_go, h]
  rw [if_pos hlt]

theorem search_kb_go_eq_none (retr : String → Except Unit (String × List Doc)) :
    ∀ (vars : List String) (best : Option Candidate) (bs : ℚ),
      (search_kb_go retr vars best bs = none ↔
        (best = none ∧ ∀ v ∈ vars, ∀ t s, retr v = .ok (t, s) →
          calculate_result_quality_score t s v ≤ bs)) := by
  intro vars
  induction vars with
  | nil => intro best bs; simp [search_kb_go]
  | cons v rest ih =>
    intro best bs
    cases hv : retr v with
    | error e =>
      rw [search_kb_go_cons_error retr v rest best bs e hv, ih]
      constructor
      · rintro ⟨h1, h2⟩
        refine ⟨h1, fun w hw t s hws => ?_⟩
        rcases List.mem_cons.mp hw with rfl | hw2
        · rw [hv] at hws; cases hws
        · exact h2 w hw2 t s hws
      · rintro ⟨h1, h2⟩
        exact ⟨h1, fun w hw t s hws => h2 w (List.mem_cons_of_mem _ hw) t s hws⟩
    | ok p =>
      obtain ⟨t0, s0⟩ := p
      by_cases hlt : bs < calculate_result_quality_score t0 s0 v
      · rw [search_kb_go_cons_ok_improve retr v rest best bs t0 s0 hv hlt, ih]
        constructor
        · rintro ⟨h1, -⟩; cases h1
        · rintro ⟨-, h2⟩
          exact absurd hlt (not_lt.mpr (h2 v (List.mem_cons_self v rest) t0 s0 hv))
      · rw [show search_kb_go retr (v :: rest) best bs = search_kb_go retr rest best bs from
          by simp only [search_kb_go, hv]; rw [if_neg hlt], ih]
        constructor
        · rintro ⟨h1, h2⟩
          refine ⟨h1, fun w hw t s hws => ?_⟩
          rcases List.mem_cons.mp hw with rfl | hw2
          · rw [hv] at hws
            simp only [Except.ok.injEq, Prod.mk.injEq] at hws
            obtain ⟨rfl, rfl⟩ := hws
            exact not_lt.mp hlt
          · exact h2 w hw2 t s hws
        · rintro ⟨h1, h2⟩
          exact ⟨h1, fun w hw t s hws => h2 w (List.mem_cons_of_mem _ hw) t s hws⟩

theorem search_kb_go_eq_some (retr : String → Except Unit (String × List Doc)) :
    ∀ (vars : List String) (best : Option Candidate) (bs : ℚ) (c : Candidate),
      search_kb_go retr vars best bs = some c →
      (best = some c ∧ ∀ v ∈ vars, ∀ t s, retr v = .ok (t, s) →
          calculate_result_quality_score t s v ≤ bs) ∨
      (retr c.query_used = .ok (c.result, c.source_documents) ∧
        c.score = calculate_result_quality_score c.result c.source_documents c.query_used ∧
        bs < c.score ∧
        ∃ pre post, vars = pre ++ c.query_used :: post ∧
          (∀ v ∈ pre, ∀ t s, retr v = .ok (t, s) →
            calculate_result_quality_score t s v < c.score) ∧
          (∀ v ∈ post, ∀ t s, retr v = .ok (t, s) →
            calculate_result_quality_score t s v ≤ c.score)) := by
  intro vars
  induction vars with
  | nil =>
    intro best bs c h
    exact Or.inl ⟨h, by simp⟩
  | cons v rest ih =>
    intro best bs c h
    cases hv : retr v with
    | error e =>
      rw [search_kb_go_cons_error retr v rest best bs e hv] at h
      rcases ih best bs c h with ⟨h1, h2⟩ | ⟨hr, hsc, hbs, pre, post, heq, hpre, hpost⟩
      · refine Or.inl ⟨h1, fun w hw t s hws => ?_⟩
        rcases List.mem_cons.mp hw with rfl | hw2
        · rw [hv] at hws; cases hws
        · exact h2 w hw2 t s hws
      · refine Or.inr ⟨hr, hsc, hbs, v :: pre, post, by rw [heq]; rfl, ?_, hpost⟩
        intro w hw t s hws
        rcases List.mem_cons.mp hw with rfl | hw2
        · rw [hv] at hws; cases hws
        · exact hpre w hw2 t s hws
    | ok p =>
      obtain ⟨t0, s0⟩ := p
      by_cases hlt : bs < calculate_result_quality_score t0 s0 v
      · rw [search_kb_go_cons_ok_improve retr v rest best bs t0 s0 hv hlt] at h
        rcases ih _ _ c h with ⟨h1, h2⟩ | ⟨hr, hsc, hbs, pre, post, heq, hpre, hpost⟩
        · obtain rfl := Option.some.inj h1
          refine Or.inr ⟨hv, rfl, hlt, [], rest, rfl, by simp, h2⟩
        · refine Or.inr ⟨hr, hsc, lt_trans hlt hbs, v :: pre, post, by rw [heq]; rfl, ?_, hpost⟩
          intro w hw t s hws
          rcases List.mem_cons.mp hw with rfl | hw2
          · rw [hv] at hws
            simp only [Except.ok.injEq, Prod.mk.injEq] at hws
            obtain ⟨rfl, rfl⟩ := hws
            exact hbs
          · exact hpre w hw2 t s hws
      · rw [show search_kb_go retr (v :: rest) best bs = search_kb_go retr rest best bs from
          by simp only [search_kb_go, hv]; rw [if_neg hlt]] at h
        rcases ih best bs c h with ⟨h1, h2⟩ | ⟨hr, hsc, hbs, pre, post, heq, hpre, hpost⟩
        · refine Or.inl ⟨h1, fun w hw t s hws => ?_⟩
          rcases List.mem_cons.mp hw with rfl | hw2
          · rw [hv] at hws
            simp only [Except.ok.injEq, Prod.mk.injEq] at hws
            obtain ⟨rfl, rfl⟩ := hws
            exact not_lt.mp hlt
          · exact h2 w hw2 t s hws
        · refine Or.inr ⟨hr, hsc, hbs, v :: pre, post, by rw [heq]; rfl, ?_, hpost⟩
          intro w hw t s hws
          rcases List.mem_cons.mp hw with rfl | hw2
          · rw [hv] at hws
            simp only [Except.ok.injEq, Prod.mk.injEq] at hws
            obtain ⟨rfl, rfl⟩ := hws
            exact lt_of_le_of_lt (not_lt.mp hlt) hbs
          · exact hpre w hw2 t s hws

/-- Claim C2: `search_kb_with_multiple_strategies` walks the variations in
list order, returns `none` exactly when every variation fails or scores at
most 0, skips failing variations without aborting, and otherwise returns the
earliest variation attaining the (strictly positive) maximum score: every
earlier variation scores strictly below it (so equal scores keep the earlier
candidate) and every later variation scores at most it. -/
theorem C2_search_kb_spec (retr : String → Except Unit (String × List Doc))
    (query_variations : List String) :
    (search_kb_with_multiple_strategies retr query_variations = none ↔
      ∀ v ∈ query_variations, ∀ t s, retr v = .ok (t, s) →
        calculate_result_quality_score t s v ≤ 0) ∧
    (∀ c, search_kb_with_multiple_strategies retr query_variations = some c →
      0 < c.score ∧
      c.score = calculate_result_quality_score c.result c.source_documents c.query_used ∧
      retr c.query_used = .ok (c.result, c.source_documents) ∧
      ∃ pre post, query_variations = pre ++ c.query_used :: post ∧
        (∀ v ∈ pre, ∀ t s, retr v = .ok (t, s) →
          calculate_result_quality_score t s v < c.score) ∧
        (∀ v ∈ post, ∀ t s, retr v = .ok (t, s) →
          calculate_result_quality_score t s v ≤ c.score)) := by
  constructor
  · unfold search_kb_with_multiple_strategies
    rw [search_kb_go_eq_none]
    simp
  · intro c h
    rcases search_kb_go_eq_some retr query_variations none 0 c h with
      ⟨h1, -⟩ | ⟨hr, hsc, hbs, pre, post, heq, hpre, hpost⟩
    · cases h1
    · exact ⟨hbs, hsc, hr, pre, post, heq, hpre, hpost⟩

theorem C10_no_long_query_words_witness :
    calculate_result_quality_score
      "Tuberculosis is an infection of the lungs and needs treatment early."
      [] "tb now" =
      lengthScore (pyTrim
        "Tuberculosis is an infection of the lungs and needs treatment early.").length
        + sourceScore (List.length ([] : List Doc)) + 2
        + kwScore (tbMatches (lowerStr
        "Tuberculosis is an infection of the lungs and needs treatment early.")) :=
  C10_no_long_query_words _ _ _ (by decide) (by decide) (by decide)

set_option maxRecDepth 8000 in
theorem C2_search_kb_spec_witness :
    0 < candA.score ∧
    candA.score = calculate_result_quality_score candA.result candA.source_documents
      candA.query_used ∧
    retrA candA.query_used = .ok (candA.result, candA.source_documents) ∧
    ∃ pre post, ["bad query", "tb treatment info"] = pre ++ candA.query_used :: post ∧
      (∀ v ∈ pre, ∀ t s, retrA v = .ok (t, s) →
        calculate_result_quality_score t s v < candA.score) ∧
      (∀ v ∈ post, ∀ t s, retrA v = .ok (t, s) →
        calculate_result_quality_score t s v ≤ candA.score) :=
  (C2_search_kb_spec retrA ["bad query", "tb treatment info"]).2 candA (by
    have hscore : calculate_result_quality_score kbTextA kbDocsA "tb treatment info" = 15 := by
      rw [calc_score_components kbTextA kbDocsA "tb treatment info" (by decide) (by decide)]
      have e1 : (pyTrim kbTextA).length = 163 := by decide
      have e2 : kbDocsA.length = 2 := by decide
      have e3 : tbMatches (lowerStr kbTextA) = 8 := by decide
      have e4 : overlapScore "tb treatment info" kbTextA = 3 := by
        have hq : (queryWordsOf "tb treatment info").length = 2 := by decide
        have ho : overlapCount "tb treatment info" kbTextA = 2 := by decide
        unfold overlapScore
        rw [hq, ho]
        norm_num
      rw [e1, e2, e3, e4]
      norm_num [lengthScore, sourceScore, kwScore]
    have hb : retrA "bad query" = .error () := rfl
    have hg : retrA "tb treatment info" = .ok (kbTextA, kbDocsA) := rfl
    unfold search_kb_with_multiple_strategies
    rw [search_kb_go_cons_error retrA "bad query" ["tb treatment info"] none 0 () hb,
      search_kb_go_cons_ok_improve retrA "tb treatment info" [] none 0 kbTextA kbDocsA hg
        (by rw [hscore]; norm_num)]
    rfl)

/-! ## Claim C6 -/

/-- Claim C6: a passage of exactly 200 stripped characters with no
strong-negative phrase, exactly 2 sources, exactly 4 domain-keyword matches
and long-query-word overlap ratio 3/5 scores exactly
15 = 4 (length) + 3 (sources) + 2 (base) + 3 (keywords) + 3 (overlap), which
is at least the configured threshold `MIN_SCORE = 3/2`; and whenever a KB
candidate meets the threshold, `get_response` labels the answer with a source
beginning with `"knowledge_base"`. -/
theorem C6_scenario_c (result_text : String) (sources : List Doc) (query : String)
    (hlen : (pyTrim result_text).length = 200)
    (hneg : strong_negatives.any (fun ind => strContains (lowerStr result_text) ind) = false)
    (hsrc : sources.length = 2)
    (hkw : tbMatches (lowerStr result_text) = 4)
    (hqn : (queryWordsOf query).length ≠ 0)
    (hfrac : overlapFrac query result_text = 3 / 5) :
    calculate_result_quality_score result_text sources query = 15 ∧
    MIN_SCORE ≤ 15 ∧
    (∀ env q detected c, pipeline_lang env q = .ok detected →
      search_kb_with_multiple_strategies env.retriever
        (create_multilingual_search_variations env q detected) = some c →
      MIN_SCORE ≤ c.score →
      ∃ suf, (get_response env q).source = "knowledge_base" ++ suf) := by
  refine ⟨?_, by norm_num [MIN_SCORE], fun env q detected c hdet hs hmin =>
    get_response_kb_label env q detected c hdet hs hmin⟩
  have h35 : overlapCount query result_text * 5 = 3 * (queryWordsOf query).length := by
    unfold overlapFrac at hfrac
    rw [if_neg hqn] at hfrac
    have hq0 : ((queryWordsOf query).length : ℚ) ≠ 0 := by exact_mod_cast hqn
    field_simp at hfrac
    exact_mod_cast hfrac
  have hov : overlapScore query result_text = 3 := by
    unfold overlapScore
    rw [if_neg hqn, if_pos (by omega)]
  rw [calc_score_components result_text sources query (by omega) hneg,
    hlen, hsrc, hkw, hov]
  norm_num [lengthScore, sourceScore, kwScore]

set_option maxRecDepth 8000 in
theorem C6_scenario_c_witness :
    calculate_result_quality_score kbTextC kbDocsC queryC = 15 ∧
    MIN_SCORE ≤ 15 ∧
    ∃ suf, (get_response envC queryC).source = "knowledge_base" ++ suf := by
  have hfrac : overlapFrac queryC kbTextC = 3 / 5 := by
    have hq : (queryWordsOf queryC).length = 5 := by decide
    have ho : overlapCount queryC kbTextC = 3 := by decide
    unfold overlapFrac
    rw [hq, ho]
    norm_num
  obtain ⟨h1, h2, h3⟩ :=
    C6_scenario_c kbTextC kbDocsC queryC (by decide) (by decide) (by decide) (by decide)
      (by decide) hfrac
  refine ⟨h1, h2, ?_⟩
  have hdet : pipeline_lang envC queryC = .ok "en" := by decide
  have hvar : create_multilingual_search_variations envC queryC "en" = [queryC] := by decide
  have hret : envC.retriever queryC = .ok (kbTextC, kbDocsC) := rfl
  have hs : search_kb_with_multiple_strategies envC.retriever
      (create_multilingual_search_variations envC queryC "en") = some candC := by
    rw [hvar]
    unfold search_kb_with_multiple_strategies
    rw [search_kb_go_cons_ok_improve envC.retriever queryC [] none 0 kbTextC kbDocsC hret
      (by rw [h1]; norm_num)]
    rfl
  exact h3 envC queryC "en" candC hdet hs (by
    show MIN_SCORE ≤ calculate_result_quality_score kbTextC kbDocsC queryC
    rw [h1]
    norm_num [MIN_SCORE])

/-! ## Claim C8 -/

/-- Claim C8: `get_response` always returns a record: a successful pipeline
body is returned unchanged, and when the body raises anywhere the boundary
handler returns the fixed record with source `"error"`, the apology answer,
and both languages `"en"`. -/
theorem C8_get_response_error_boundary (env : Env) (query : String) :
    (∀ r, get_response_body env query = .ok r → get_response env query = r) ∧
    (∀ e, get_response_body env query = .error e →
      get_response env query = ⟨"error", errorAnswer, "en", "en"⟩) := by
  constructor
  · intro r h
    unfold get_response
    rw [h]
  · intro e h
    unfold get_response
    rw [h]

theorem C8_get_response_error_boundary_witness :
    get_response envErr "how far body" = ⟨"error", errorAnswer, "en", "en"⟩ :=
  (C8_get_response_error_boundary envErr "how far body").2 () (by decide)

/-! ## Claim C9 -/

/-- Claim C9: for a non-English target, when both the domain-restricted and
the broadened web search return strings that strip below 20 characters, the
fallback returns the fixed English no-information message, and when the body
raises it returns the fixed English fetch-failure message — in both cases the
exact English constant, whatever the translator does. -/
theorem C9_web_fallback_fixed_messages (env : Env) (query target_lang : String)
    (hne : target_lang ≠ "en") :
    (∀ r1 r2, env.webSearch (searchTerms1 query) = .ok r1 → (pyTrim r1).length < 20 →
      env.webSearch (searchTerms2 query) = .ok r2 → (pyTrim r2).length < 20 →
      web_search_fallback env query target_lang = noInfoMsg) ∧
    (∀ e, web_search_body env query target_lang = .error e →
      web_search_fallback env query target_lang = fetchFailMsg) := by
  constructor
  · intro r1 r2 h1 hl1 h2 hl2
    have hbody : web_search_body env query target_lang = .ok noInfoMsg := by
      unfold web_search_body
      simp only [h1]
      rw [if_pos hl1]
      simp only [h2]
      rw [if_pos hl2]
    unfold web_search_fallback
    rw [hbody]
  · intro e h
    unfold web_search_fallback
    rw [h]

theorem C9_web_fallback_fixed_messages_witness :
    web_search_fallback envWebA "tb cure" "yo" = noInfoMsg ∧
    web_search_fallback envWebB "tb cure" "yo" = fetchFailMsg :=
  ⟨(C9_web_fallback_fixed_messages envWebA "tb cure" "yo" (by decide)).1 "" ""
      rfl (by decide) rfl (by decide),
   (C9_web_fallback_fixed_messages envWebB "tb cure" "yo" (by decide)).2 () (by decide)⟩
